import Mathlib

/-!
Verification development for the voice-assistant session engine of the
brom-ai repository (`src/components/features/assistant/AssistantView.tsx`).
The definitions below are a shallow embedding of the relevant source code:
the playback scheduler, the session state handling in `handleServerMessage`,
`stopConversation`, the capture callback, and the tool-call dispatch switch.
Times are modelled as rationals (the Web Audio clock), JavaScript values
reaching the handlers as a small value type, and the DOM side effects
(`window.open`, `window.location.href`) as an explicit effect list.
-/

namespace BromAI

/-! ## Playback scheduler (AssistantView.tsx lines 552-569)

One inbound audio-delta event carries the device clock observed when it is
handled (`outputCtx.currentTime`) and the decoded buffer duration
(`audioBuffer.duration`). The code advances the cursor
`nextStartTimeRef.current` with
`nextStart = max(nextStart, currentTime)` before `source.start(nextStart)`
and `nextStart += duration` after.  -/

structure SchedEvent where
  clock : ℚ
  dur : ℚ
deriving DecidableEq

/-- One scheduling step: returns the start time assigned to this buffer and
the new cursor value, exactly as lines 555-567 compute them. -/
def scheduleStep (nextStart : ℚ) (e : SchedEvent) : ℚ × ℚ :=
  let s := max nextStart e.clock
  (s, s + e.dur)

/-- Cursor value after handling a sequence of audio-delta events. -/
def nextStartAfter (init : ℚ) (es : List SchedEvent) : ℚ :=
  es.foldl (fun n e => (scheduleStep n e).2) init

/-- Start time assigned to the i-th buffer of the sequence. -/
def startOf (init : ℚ) (es : List SchedEvent) (i : ℕ) : ℚ :=
  max (nextStartAfter init (es.take i)) ((es.getD i ⟨0, 0⟩).clock)

/-! ## Engine state (the refs of the AssistantView component) -/

inductive AState
  | idle
  | connecting
  | listening
  | speaking
deriving DecidableEq

/-- The mutable refs and React state of the component that the session
engine reads and writes. `drainTimer` models
`transitionToListeningTimeoutRef` together with its scheduled timeout: the
code clears the old timeout whenever it overwrites the ref (lines 309-311,
572-575, 584-587), so a single optional slot is a faithful abstraction;
`some d` holds the pending delay in milliseconds. `outputSources` models
`outputSourcesRef` as the start times of the scheduled, not yet discarded
buffer sources. -/
structure EngineState where
  aState : AState
  sessionOpen : Bool
  micOpen : Bool
  scriptProcConnected : Bool
  inputCtxOpen : Bool
  outputCtxOpen : Bool
  nextStart : ℚ
  outputSources : List ℚ
  drainTimer : Option ℚ
  systemActions : List String
  userText : String
  modelText : String
deriving DecidableEq

/-- State before `startConversation` has ever run. -/
def initState : EngineState :=
  { aState := .idle, sessionOpen := false, micOpen := false
    scriptProcConnected := false, inputCtxOpen := false, outputCtxOpen := false
    nextStart := 0, outputSources := [], drainTimer := none
    systemActions := [], userText := "", modelText := "" }

/-- `stopConversation` (lines 583-613): cancel the drain timer, close the
session, stop the microphone tracks, disconnect the processor nodes, close
both audio contexts, stop and clear every queued source, reset the UI. -/
def stopConversation (s : EngineState) : EngineState :=
  { s with drainTimer := none, sessionOpen := false, micOpen := false
           scriptProcConnected := false, inputCtxOpen := false
           outputCtxOpen := false, outputSources := []
           aState := .idle, systemActions := [] }

/-- The `serverContent.interrupted` branch (lines 571-580). -/
def handleInterrupted (s : EngineState) : EngineState :=
  { s with drainTimer := none, outputSources := [], nextStart := 0
           aState := .listening }

/-- The `serverContent.turnComplete` branch (lines 306-325): clear the
transcript, cancel a pending drain timer, then either defer the transition
by the remaining playback time (in ms) plus the 200 ms guard, or go to
`listening` at once. -/
def handleTurnComplete (s : EngineState) (now : ℚ) : EngineState :=
  let s1 := { s with userText := "", modelText := "", drainTimer := none }
  if s.outputCtxOpen ∧ now < s.nextStart then
    { s1 with drainTimer := some ((max 0 (s.nextStart - now)) * 1000 + 200) }
  else
    { s1 with aState := .listening }

/-- The audio-delta branch (lines 552-569): only acts while the output
audio context is open; schedules one buffer and advances the cursor. The
second component is the list of emitted observable actions. -/
def handleAudioDelta (s : EngineState) (now dur : ℚ) :
    EngineState × List ℚ :=
  if s.outputCtxOpen then
    let start := max s.nextStart now
    ({ s with nextStart := start + dur
              outputSources := s.outputSources ++ [start] }, [start])
  else (s, [])

/-! ## Events and observable outputs -/

/-- Externally observable side effects of one engine step. -/
inductive Obs
  | outboundFrame
  | scheduledBuffer (start : ℚ)
deriving DecidableEq

/-- Events driving the engine: user actions (`start`, `stop`), the
connection callback (`connectOpen` = `onopen`), the inbound server events
handled by `handleServerMessage`, the drain timer firing, and one firing
of `scriptProcessor.onaudioprocess` (`captureFrame`). -/
inductive Event
  | start
  | connectOpen
  | inputTranscript (t : String)
  | outputTranscript (t : String)
  | turnComplete (now : ℚ)
  | audioDelta (now dur : ℚ)
  | interrupted
  | drainFire
  | captureFrame
  | stop
deriving DecidableEq

/-- `startConversation` success path (lines 615-732) up to the point where
the session promise is installed: opens both audio contexts, acquires the
microphone, sets state `connecting`. Callable only from `idle` (the UI
button and the auto-activation effect invoke it only there). -/
def startConversation (s : EngineState) : EngineState :=
  { s with aState := .connecting, outputCtxOpen := true, micOpen := true
           inputCtxOpen := true, sessionOpen := true
           userText := "", modelText := "", systemActions := [] }

/-- One engine step. `captureFrame` emits an outbound frame exactly when
the script processor is wired into a running input context and
`sessionPromiseRef.current` is non-null (lines 685-701); the `onopen`
callback (lines 667-707) wires the processor and sets `listening`, or
calls `stopConversation` when the input context or stream is gone. -/
def stepE (s : EngineState) : Event → EngineState × List Obs
  | .start => (if s.aState = .idle then startConversation s else s, [])
  | .connectOpen =>
      (if s.inputCtxOpen ∧ s.micOpen then
        { s with scriptProcConnected := true, aState := .listening }
      else stopConversation s, [])
  | .inputTranscript t => ({ s with userText := s.userText ++ t }, [])
  | .outputTranscript t =>
      ({ s with aState := .speaking, modelText := s.modelText ++ t }, [])
  | .turnComplete now => (handleTurnComplete s now, [])
  | .audioDelta now dur =>
      ((handleAudioDelta s now dur).1,
        (handleAudioDelta s now dur).2.map Obs.scheduledBuffer)
  | .interrupted => (handleInterrupted s, [])
  | .drainFire =>
      (match s.drainTimer with
       | some _ => { s with aState := .listening, drainTimer := none }
       | none => s, [])
  | .captureFrame =>
      (s, if s.scriptProcConnected ∧ s.inputCtxOpen ∧ s.sessionOpen then
            [.outboundFrame]
          else [])
  | .stop => (stopConversation s, [])

/-- Run a trace of events. -/
def runState (s : EngineState) (evs : List Event) : EngineState :=
  evs.foldl (fun s e => (stepE s e).1) s

/-- Run a trace collecting every observable output, each paired with the
engine state at the moment it was emitted. -/
def runObs (s : EngineState) : List Event → List (Obs × EngineState)
  | [] => []
  | e :: evs =>
      ((stepE s e).2.map (fun o => (o, s))) ++ runObs (stepE s e).1 evs

/-! ## Tool-call dispatch (AssistantView.tsx lines 327-550)

JavaScript values reaching the handlers (`fc.args` entries) are strings or
numbers; a missing key is JavaScript `undefined`, modelled by `Option`.
A handler that would throw a TypeError (calling a string method on
`undefined` or on a number) is modelled by returning `none`. -/

inductive JVal
  | str (s : String)
  | num (n : Int)
deriving DecidableEq

/-- JavaScript template-literal stringification of a defined value. -/
def jsShow : JVal → String
  | .str s => s
  | .num n => toString n

/-- Stringification including `undefined`. -/
def jsShowOpt : Option JVal → String
  | none => "undefined"
  | some v => jsShow v

/-- JavaScript truthiness of a possibly-undefined value. -/
def jsTruthy : Option JVal → Bool
  | none => false
  | some (.str s) => !s.isEmpty
  | some (.num n) => n != 0

abbrev Args := List (String × JVal)

def getArg (args : Args) (k : String) : Option JVal :=
  (args.find? (fun p => p.1 == k)).map (fun p => p.2)

/-- Does `needle` occur as a contiguous run inside `hay`? -/
def listContainsRun (needle : List Char) : List Char → Bool
  | [] => needle.isEmpty
  | c :: t => needle.isPrefixOf (c :: t) || listContainsRun needle t

/-- `haystack.includes(needle)` on strings. -/
def jsIncludes (hay needle : String) : Bool :=
  listContainsRun needle.toList hay.toList

/-- `s.toLowerCase()`. -/
def jsToLower (s : String) : String :=
  String.mk (s.toList.map Char.toLower)

/-- `s.trim()`: strip leading and trailing whitespace. -/
def jsTrim (s : String) : String :=
  String.mk
    (((s.toList.dropWhile Char.isWhitespace).reverse.dropWhile
      Char.isWhitespace).reverse)

/-- `s.replace(/\s/g, "")`. -/
def removeSpaces (s : String) : String :=
  String.mk (s.toList.filter (fun c => !c.isWhitespace))

/-- `s.replace(/\D/g, "")`. -/
def digitsOnly (s : String) : String :=
  String.mk (s.toList.filter (fun c => c.isDigit))

/-- The test of the phone-number pattern used by `makeCall`:
one or more characters, each a digit, whitespace, plus or minus. -/
def phonePatternMatch (s : String) : Bool :=
  !s.isEmpty &&
    s.toList.all (fun c =>
      c.isDigit || c.isWhitespace || c == Char.ofNat 43 || c == Char.ofNat 45)

/-- Characters `encodeURIComponent` leaves unescaped:
alphanumerics and `- _ . ! ~ * ( )` and the apostrophe (code 39). -/
def isUnreservedChar (c : Char) : Bool :=
  c.isAlphanum ||
    [Char.ofNat 45, Char.ofNat 95, Char.ofNat 46, Char.ofNat 33,
     Char.ofNat 126, Char.ofNat 42, Char.ofNat 39, Char.ofNat 40,
     Char.ofNat 41].contains c

def hexDigit (n : ℕ) : Char :=
  if n < 10 then Char.ofNat (48 + n) else Char.ofNat (55 + n)

def percentByte (b : UInt8) : String :=
  String.mk [Char.ofNat 37, hexDigit (b.toNat / 16), hexDigit (b.toNat % 16)]

def encodeURIComponent (s : String) : String :=
  String.join (s.toList.map (fun c =>
    if isUnreservedChar c then String.singleton c
    else String.join ((String.singleton c).toUTF8.toList.map percentByte)))

/-- An app entry of `SUPPORTED_APPS` (SettingsView.tsx). -/
structure SupportedApp where
  id : String
  name : String
  description : String
deriving DecidableEq

def SUPPORTED_APPS : List SupportedApp :=
  [⟨"youtube", "YouTube", "Allow Echo to play videos on YouTube."⟩,
   ⟨"chrome", "Google Chrome", "Allow Echo to open web pages."⟩,
   ⟨"spotify", "Spotify", "Allow Echo to play music on Spotify."⟩,
   ⟨"whatsapp", "WhatsApp", "Allow Echo to send messages via WhatsApp."⟩,
   ⟨"instagram", "Instagram", "Allow Echo to open Instagram."⟩,
   ⟨"facebook", "Facebook", "Allow Echo to interact with Facebook."⟩]

/-- The mobile URL-scheme table of the `launchApp` handler. -/
def appSchemeMap (id : String) : Option String :=
  match id with
  | "spotify" => some ("spotify://")
  | "twitter" => some ("twitter://")
  | "instagram" => some ("instagram://")
  | "youtube" => some ("youtube://")
  | "whatsapp" => some ("whatsapp://")
  | "facebook" => some ("fb://")
  | "slack" => some ("slack://")
  | "discord" => some ("discord://")
  | "chrome" => some ("googlechrome://")
  | _ => none

/-- The desktop web-link table of the `launchApp` handler. -/
def webLinkMap (id : String) : Option String :=
  match id with
  | "spotify" => some ("https://open.spotify.com")
  | "twitter" => some ("https://twitter.com")
  | "instagram" => some ("https://instagram.com")
  | "youtube" => some ("https://youtube.com")
  | "whatsapp" => some ("https://web.whatsapp.com")
  | "facebook" => some ("https://facebook.com")
  | "slack" => some ("https://app.slack.com")
  | "discord" => some ("https://discord.com/app")
  | "chrome" => some ("https://google.com")
  | _ => none

/-- `(platform as string || "youtube").toLowerCase()` in the `playVideo`
handler: an absent, empty-string or zero platform falls back to
`youtube`; calling `toLowerCase` on a non-zero number throws (`none`). -/
def resolvePlatform (platform : Option JVal) : Option String :=
  match platform with
  | some (JVal.str s) => if s.isEmpty then some ("youtube") else some (jsToLower s)
  | some (JVal.num n) => if n == 0 then some ("youtube") else none
  | none => some ("youtube")

/-- DOM side effects a handler can perform: `window.open(url, ...)` and the
deferred `window.location.href = url` assignment. -/
inductive ExternalAction
  | windowOpen (url : String)
  | locationHref (url : String)
deriving DecidableEq

/-- What one arm of the `switch (fc.name)` statement produces: the
recent-actions log line, the result text sent back to the model, and the
external actions performed. -/
structure DispatchOutcome where
  actionDescription : String
  actionResult : String
  effects : List ExternalAction
deriving DecidableEq

/-- The `sendMessage` arm (lines 346-358): gated on the WhatsApp
permission. -/
def sendMessageHandler (perms : String → Bool) (args : Args) :
    Option DispatchOutcome :=
  if !(perms ("whatsapp")) then
    some { actionDescription := "❌ Permission denied for WhatsApp."
           actionResult := "I don\x27t have permission to send messages with WhatsApp. You can enable this in the settings."
           effects := [] }
  else
    let recipient := getArg args ("recipient")
    let msgContent := getArg args ("message")
    some { actionDescription := "💬 Opening WhatsApp for message to " ++
             jsShowOpt recipient ++ "."
           actionResult := "I\x27m opening WhatsApp so you can send your message."
           effects := [.windowOpen ("https://wa.me/?text=" ++
             encodeURIComponent (jsShowOpt msgContent))] }

/-- The `playMusic` arm (lines 392-417): gated on the Spotify
permission. -/
def playMusicHandler (perms : String → Bool) (args : Args) :
    Option DispatchOutcome :=
  if !(perms ("spotify")) then
    some { actionDescription := "❌ Permission denied for Spotify."
           actionResult := "I don\x27t have permission to play music on Spotify. You can enable this in the settings."
           effects := [] }
  else
    let artist := getArg args ("artist")
    let song := getArg args ("song")
    let playlist := getArg args ("playlist")
    let query :=
      jsTrim
        ((if jsTruthy song then jsShowOpt song ++ " " else "") ++
         (if jsTruthy artist then jsShowOpt artist ++ " " else "") ++
         (if jsTruthy playlist then "playlist " ++ jsShowOpt playlist ++ " "
          else ""))
    if query.isEmpty then
      some { actionDescription := "🎵 Opening Spotify."
             actionResult := "Opening Spotify for you."
             effects := [.windowOpen ("https://open.spotify.com")] }
    else
      some { actionDescription := "🎵 Searching Spotify for \"" ++ query ++ "\"."
             actionResult := "Searching for \"" ++ query ++ "\" on Spotify."
             effects := [.windowOpen ("https://open.spotify.com/search/" ++
               encodeURIComponent query)] }

/-- The `launchApp` arm (lines 431-472): resolves the app by substring
match over `SUPPORTED_APPS`, denies when unresolved or not permitted,
otherwise launches by mobile scheme or desktop web link. With no (or a
non-string) `appName` the code throws (`(appName as string).toLowerCase()`
on `undefined`), modelled by `none`. -/
def launchAppHandler (perms : String → Bool) (isMobile : Bool) (args : Args) :
    Option DispatchOutcome :=
  match getArg args ("appName") with
  | some (JVal.str appName) =>
      let lower := jsTrim (jsToLower appName)
      match SUPPORTED_APPS.find? (fun app => jsIncludes lower app.id) with
      | none =>
          some { actionDescription := "❌ Permission denied for " ++ appName ++ "."
                 actionResult := "I don\x27t have permission to launch " ++
                   appName ++ ". You can enable this in the settings."
                 effects := [] }
      | some app =>
          if !(perms app.id) then
            some { actionDescription := "❌ Permission denied for " ++
                     app.name ++ "."
                   actionResult := "I don\x27t have permission to launch " ++
                     app.name ++ ". You can enable this in the settings."
                   effects := [] }
          else if isMobile then
            some { actionDescription := "🚀 Launching " ++ app.name ++ "..."
                   actionResult := "Attempting to open " ++ app.name ++ "."
                   effects := [.locationHref
                     ((appSchemeMap app.id).getD (removeSpaces app.id ++ "://"))] }
          else
            match webLinkMap app.id with
            | some w =>
                some { actionDescription := "🚀 Launching " ++ app.name ++ "..."
                       actionResult := "Opened " ++ app.name ++
                         " in a new browser tab."
                       effects := [.windowOpen w] }
            | none =>
                some { actionDescription := "❌ Opening \"" ++ app.name ++
                         "\" is not configured for this device."
                       actionResult := "I can\x27t open \"" ++ app.name ++
                         "\" on a desktop or tablet."
                       effects := [] }
  | _ => none

/-- The `playVideo` arm (lines 505-527): gated on the YouTube permission
when the platform resolves to YouTube. -/
def playVideoHandler (perms : String → Bool) (args : Args) :
    Option DispatchOutcome :=
  let videoTitle := getArg args ("title")
  let platform := getArg args ("platform")
  match resolvePlatform platform with
  | none => none
  | some lp =>
      if jsIncludes lp ("youtube") then
        if !(perms ("youtube")) then
          some { actionDescription := "❌ Permission denied for YouTube."
                 actionResult := "I don\x27t have permission to play videos on YouTube. You can enable this in the settings."
                 effects := [] }
        else
          some { actionDescription := "🎬 Searching YouTube for \"" ++
                   jsShowOpt videoTitle ++ "\"."
                 actionResult := "Searching for \"" ++ jsShowOpt videoTitle ++
                   "\" on YouTube."
                 effects := [.windowOpen
                   ("https://www.youtube.com/results?search_query=" ++
                     encodeURIComponent (jsShowOpt videoTitle))] }
      else
        some { actionDescription := "🎬 Playing \"" ++ jsShowOpt videoTitle ++
                 "\"" ++
                 (if jsTruthy platform then " on " ++ jsShowOpt platform
                  else "") ++ ". (simulation)"
               actionResult := "I can\x27t play videos from " ++
                 jsShowOpt platform ++ " yet, but I\x27ve noted your request."
               effects := [] }

/-- The `switch (fc.name)` statement (lines 332-536), one arm per declared
tool plus the default arm. `none` means the arm threw a TypeError. -/
def dispatchToolCall (perms : String → Bool) (isMobile : Bool)
    (name : String) (args : Args) : Option DispatchOutcome :=
  match name with
  | "controlLight" =>
      let b := (getArg args ("brightness")).getD (JVal.num 100)
      let ct := (getArg args ("colorTemperature")).getD (JVal.str ("neutral"))
      some { actionDescription := "💡 Light set to " ++ jsShow b ++
               "% brightness with a " ++ jsShow ct ++ " temperature. (Simulation)"
             actionResult := "I have simulated controlling the light as requested. In a real application, this would adjust a smart home device."
             effects := [] }
  | "setReminder" =>
      let task := getArg args ("task")
      some { actionDescription := "📅 Opening Google Calendar to set reminder: \"" ++
               jsShowOpt task ++ "\""
             actionResult := "I\x27m opening Google Calendar for you to set a reminder about \"" ++
               jsShowOpt task ++ "\"."
             effects := [.windowOpen
               ("https://calendar.google.com/calendar/render?action=TEMPLATE&text=" ++
                 encodeURIComponent (jsShowOpt task))] }
  | "sendMessage" => sendMessageHandler perms args
  | "setAlarm" =>
      let time := getArg args ("time")
      let label := getArg args ("label")
      let query := "set an alarm for " ++ jsShowOpt time ++
        (if jsTruthy label then " called " ++ jsShowOpt label else "")
      some { actionDescription := "🚨 Opening Google to set alarm for " ++
               jsShowOpt time ++ "..."
             actionResult := "I\x27ve opened a Google search for you to set the alarm."
             effects := [.windowOpen ("https://www.google.com/search?q=" ++
               encodeURIComponent query)] }
  | "createCalendarEvent" =>
      let title := getArg args ("title")
      let date := getArg args ("date")
      let eventTime := getArg args ("time")
      let details := "Date: " ++ jsShowOpt date ++ ", Time: " ++ jsShowOpt eventTime
      some { actionDescription := "📅 Opening Google Calendar to create event: \"" ++
               jsShowOpt title ++ "\"..."
             actionResult := "I\x27m opening Google Calendar with the details for \"" ++
               jsShowOpt title ++ "\" pre-filled for you."
             effects := [.windowOpen
               ("https://calendar.google.com/calendar/render?action=TEMPLATE&text=" ++
                 encodeURIComponent (jsShowOpt title) ++ "&details=" ++
                 encodeURIComponent details)] }
  | "getWeatherForecast" =>
      let location := getArg args ("location")
      some { actionDescription := "☀️ Opening Google Weather for " ++
               jsShowOpt location ++ "."
             actionResult := "I have opened Google\x27s weather forecast for " ++
               jsShowOpt location ++ " in a new tab."
             effects := [.windowOpen ("https://www.google.com/search?q=weather+in+" ++
               encodeURIComponent (jsShowOpt location))] }
  | "getDirections" =>
      let destination := getArg args ("destination")
      let startingPoint := getArg args ("startingPoint")
      some { actionDescription := "🗺️ Opening Google Maps for directions to " ++
               jsShowOpt destination ++ "."
             actionResult := "I\x27ve opened Google Maps with directions to " ++
               jsShowOpt destination ++ "."
             effects := [.windowOpen ("https://www.google.com/maps/dir/" ++
               (if jsTruthy startingPoint then
                 encodeURIComponent (jsShowOpt startingPoint)
                else "") ++ "/" ++ encodeURIComponent (jsShowOpt destination))] }
  | "playMusic" => playMusicHandler perms args
  | "addToList" =>
      let listName := getArg args ("listName")
      let item := getArg args ("item")
      some { actionDescription := "📝 Added \"" ++ jsShowOpt item ++ "\" to your " ++
               jsShowOpt listName ++ " list. (Simulation)"
             actionResult := "I\x27ve noted to add \"" ++ jsShowOpt item ++
               "\" to your " ++ jsShowOpt listName ++
               " list. In a full app, this would sync with a to-do list service."
             effects := [] }
  | "translateText" =>
      let text := getArg args ("text")
      let targetLanguage := getArg args ("targetLanguage")
      some { actionDescription := "🌐 Opening Google Translate for \"" ++
               jsShowOpt text ++ "\" to " ++ jsShowOpt targetLanguage ++ "."
             actionResult := "I\x27m opening Google Translate with your text ready to be translated."
             effects := [.windowOpen ("https://translate.google.com/?sl=auto&tl=" ++
               encodeURIComponent (jsShowOpt targetLanguage) ++ "&text=" ++
               encodeURIComponent (jsShowOpt text) ++ "&op=translate")] }
  | "launchApp" => launchAppHandler perms isMobile args
  | "makeCall" =>
      let contact := getArg args ("contact")
      if isMobile then
        if phonePatternMatch (jsShowOpt contact) then
          match contact with
          | some (JVal.str c) =>
              some { actionDescription := "📞 Calling " ++ c ++ "..."
                     actionResult := "Calling " ++ c ++ "."
                     effects := [.locationHref ("tel:" ++ digitsOnly c)] }
          | _ => none
        else
          some { actionDescription := "❌ Could not call " ++ jsShowOpt contact ++
                   ". Please provide a valid phone number."
                 actionResult := "I can only call phone numbers directly. Please provide a full number."
                 effects := [] }
      else
        some { actionDescription := "❌ Calling is only available on mobile devices."
               actionResult := "I cannot make phone calls from this device."
               effects := [] }
  | "setTimer" =>
      let duration := getArg args ("duration")
      let timerLabel := getArg args ("label")
      let query := "set a timer for " ++ jsShowOpt duration ++
        (if jsTruthy timerLabel then " called " ++ jsShowOpt timerLabel else "")
      some { actionDescription := "⏳ Opening Google to set timer for " ++
               jsShowOpt duration ++ "."
             actionResult := "I have opened a Google search for you to start the timer."
             effects := [.windowOpen ("https://www.google.com/search?q=" ++
               encodeURIComponent query)] }
  | "getCalendarEvents" =>
      let eventDate := (getArg args ("date")).getD (JVal.str ("today"))
      some { actionDescription := "🗓️ Opening Google Calendar to view events for " ++
               jsShow eventDate ++ "."
             actionResult := "I can\x27t view your calendar events directly for security reasons, but I have opened Google Calendar for you to check."
             effects := [.windowOpen ("https://calendar.google.com/")] }
  | "playVideo" => playVideoHandler perms args
  | "controlDeviceSettings" =>
      let setting := getArg args ("setting")
      let value := getArg args ("value")
      some { actionDescription := "⚙️ Setting " ++ jsShowOpt setting ++ " to " ++
               jsShowOpt value ++ ". (Simulation)"
             actionResult := "I cannot change device settings from a web browser. This action is simulated."
             effects := [] }
  | _ =>
      some { actionDescription := "❓ Unknown action attempted: " ++ name
             actionResult := "error: unknown function"
             effects := [] }

/-! ## The tool-call loop (lines 327-550) -/

structure ToolCall where
  id : String
  name : String
  args : Args
deriving DecidableEq

structure ToolResponse where
  id : String
  name : String
  result : String
deriving DecidableEq

/-- Loop state: the recent-actions log, the tool responses sent so far and
whether an uncaught handler exception aborted the loop. -/
structure BatchState where
  log : List String
  sent : List ToolResponse
  aborted : Bool
deriving DecidableEq

/-- `setSystemActions(prev => [actionDescription, ...prev].slice(0, 5))`
(line 538). -/
def pushAction (log : List String) (d : String) : List String :=
  (d :: log).take 5

/-- One iteration of `for (const fc of message.toolCall.functionCalls)`:
dispatch, append the log line, send exactly one response for this call.
A thrown TypeError propagates out of the loop, so every later iteration
(and this call\x27s response) is skipped. -/
def toolCallStep (perms : String → Bool) (isMobile : Bool)
    (st : BatchState) (fc : ToolCall) : BatchState :=
  if st.aborted then st
  else
    match dispatchToolCall perms isMobile fc.name fc.args with
    | none => { st with aborted := true }
    | some o =>
        { log := pushAction st.log o.actionDescription
          sent := st.sent ++ [⟨fc.id, fc.name, o.actionResult⟩]
          aborted := false }

/-- Process one inbound `toolCall` batch. -/
def processToolCalls (perms : String → Bool) (isMobile : Bool)
    (st : BatchState) (fcs : List ToolCall) : BatchState :=
  fcs.foldl (toolCallStep perms isMobile) st

/-! ## Capture sample conversion (lines 685-701)

`int16[i] = inputData[i] * 32768` stores through an `Int16Array`, whose
JavaScript coercion truncates toward zero and wraps modulo 2^16. -/

/-- JavaScript ToIntegerOrInfinity on a finite value: truncation toward
zero (`Int.tdiv` truncates the quotient toward zero and the denominator
of a rational is positive). -/
def jsTrunc (q : ℚ) : Int :=
  q.num.tdiv q.den

/-- Floor of a rational, computably (`Int.fdiv` rounds toward minus
infinity). -/
def floorQ (q : ℚ) : Int :=
  q.num.fdiv q.den

/-- JavaScript `Math.round`: floor of `q + 1/2` (halves round up). -/
def jsRound (q : ℚ) : Int :=
  floorQ (q + 1 / 2)

/-- JavaScript ToInt16: truncate, wrap modulo 2^16, reinterpret as signed. -/
def toInt16 (x : ℚ) : Int :=
  let m := jsTrunc x % 65536
  if m < 32768 then m else m - 65536

/-- What the capture callback stores for one floating sample. -/
def captureSample (sample : ℚ) : Int :=
  toInt16 (sample * 32768)

/-- Modelled from the spec: `round(sample * 32768)` clamped to the
representable range of a 16-bit signed integer. For comparison with
`captureSample` only; the source has no such clamping code. -/
def specPcm16 (sample : ℚ) : Int :=
  max (-32768) (min 32767 (jsRound (sample * 32768)))

/-! ## Concrete configurations used to instantiate the theorems below -/

/-- An engine state with the output context open and 5 s of queued audio. -/
def demoOpenState : EngineState :=
  { initState with outputCtxOpen := true, nextStart := 5 }

/-- Two audio-delta events: both observed at device clock 0, with buffer
durations 1 and 2. -/
def demoSched : List SchedEvent := [⟨0, 1⟩, ⟨0, 2⟩]

/-- State reached by start, channel-open and one output-transcript delta:
the assistant is `speaking` with the capture pipeline wired. -/
def preSpeaking : EngineState :=
  runState initState [.start, .connectOpen, .outputTranscript ("Hi")]

/-- State reached by start and channel-open only: plain `listening`. -/
def preListening : EngineState :=
  runState initState [.start, .connectOpen]

/-- A five-entry recent-actions log (already at capacity). -/
def demoFullLog : List String := ["a", "b", "c", "d", "e"]

/-- The `controlLight` call of the spec scenario. -/
def demoLightCall : ToolCall :=
  { id := "call-7", name := "controlLight"
    args := [("brightness", JVal.num 40), ("colorTemperature", JVal.str ("warm"))] }

/-- Outcome the `controlLight` arm produces for `demoLightCall`. -/
def demoLightOutcome : DispatchOutcome :=
  { actionDescription := "💡 Light set to 40% brightness with a warm temperature. (Simulation)"
    actionResult := "I have simulated controlling the light as requested. In a real application, this would adjust a smart home device."
    effects := [] }

/-- Invariant maintained by every engine step: an open input context
implies a live session promise, and a wired script processor implies an
open input context and a `listening` or `speaking` state. -/
def EngineInv (s : EngineState) : Prop :=
  (s.inputCtxOpen = true → s.sessionOpen = true) ∧
  (s.scriptProcConnected = true →
    s.inputCtxOpen = true ∧ (s.aState = .listening ∨ s.aState = .speaking))

/-! ## Theorems -/

/-- C2: handling an inbound `interrupted` event — in every prior
configuration, so for 0, 1 or many queued buffers — discards every
scheduled playback source, leaves the pending source set empty, resets
the cursor `nextStart` to 0, cancels any pending drain timer, and sets
the state to `listening` without waiting for drain. -/
theorem interrupted_flushes_playback (s : EngineState) :
    (handleInterrupted s).outputSources = [] ∧
    (handleInterrupted s).nextStart = 0 ∧
    (handleInterrupted s).drainTimer = none ∧
    (handleInterrupted s).aState = .listening ∧
    stepE s .interrupted = (handleInterrupted s, []) :=
  ⟨rfl, rfl, rfl, rfl, rfl⟩

/-- C5: `stopConversation` from any state ends `idle` with the session
closed, microphone released, both audio contexts closed, the queued
sources stopped and cleared, and the drain timer cancelled; it is
idempotent, and afterwards the capture callback sends nothing and an
inbound audio delta schedules nothing. -/
theorem stop_idempotent_releases_all (s : EngineState) :
    (stopConversation s).aState = .idle ∧
    (stopConversation s).sessionOpen = false ∧
    (stopConversation s).micOpen = false ∧
    (stopConversation s).scriptProcConnected = false ∧
    (stopConversation s).inputCtxOpen = false ∧
    (stopConversation s).outputCtxOpen = false ∧
    (stopConversation s).outputSources = [] ∧
    (stopConversation s).drainTimer = none ∧
    stopConversation (stopConversation s) = stopConversation s ∧
    (stepE (stopConversation s) .captureFrame).2 = [] ∧
    (∀ now dur : ℚ,
      stepE (stopConversation s) (.audioDelta now dur) = (stopConversation s, [])) := by
  refine ⟨rfl, rfl, rfl, rfl, rfl, rfl, rfl, rfl, rfl, ?_, ?_⟩
  · simp [stepE, stopConversation]
  · intro now dur
    simp [stepE, handleAudioDelta, stopConversation]

/-- C3: on turn-complete with the output context open, if `nextStart` is
not in the future the state becomes `listening` immediately with no drain
timer pending; if playback is still queued the transition is deferred by
exactly the remaining playback time (ms) plus the 200 ms guard margin,
the state is left unchanged, and the single timer slot holds only the
new timer (any previously pending drain timer was cancelled). -/
theorem turnComplete_drain_exact (s : EngineState) (now : ℚ)
    (hctx : s.outputCtxOpen = true) :
    (s.nextStart ≤ now →
      (handleTurnComplete s now).aState = .listening ∧
      (handleTurnComplete s now).drainTimer = none) ∧
    (now < s.nextStart →
      (handleTurnComplete s now).drainTimer =
        some ((s.nextStart - now) * 1000 + 200) ∧
      (handleTurnComplete s now).aState = s.aState) := by
  simp only [handleTurnComplete]
  split_ifs with hcond
  · refine ⟨fun hle => absurd hcond.2 (not_lt.mpr hle), fun hlt => ⟨?_, rfl⟩⟩
    have hmax : max 0 (s.nextStart - now) = s.nextStart - now :=
      max_eq_right (by linarith)
    rw [hmax]
  · refine ⟨fun hle => ⟨rfl, rfl⟩, fun hlt => absurd ⟨hctx, hlt⟩ hcond⟩

/-- Witness for C3 at a state with 5 s of queued audio: clock 10 is past
`nextStart`, clock 2 is 3 s before it. -/
theorem turnComplete_drain_exact_witness :
    ((handleTurnComplete demoOpenState 10).aState = .listening ∧
      (handleTurnComplete demoOpenState 10).drainTimer = none) ∧
    (handleTurnComplete demoOpenState 2).drainTimer = some 3200 ∧
    (handleTurnComplete demoOpenState 2).aState = demoOpenState.aState := by
  have h5 : demoOpenState.nextStart = 5 := rfl
  refine ⟨(turnComplete_drain_exact demoOpenState 10 rfl).1 (by rw [h5]; norm_num),
    ?_, ((turnComplete_drain_exact demoOpenState 2 rfl).2
      (by rw [h5]; norm_num)).2⟩
  have h := ((turnComplete_drain_exact demoOpenState 2 rfl).2
    (by rw [h5]; norm_num)).1
  rw [h, h5]
  norm_num

/-- C8 counterexample: not every tool-call dispatch appends a log line —
a dispatch that throws (`launchApp` with no `appName`, line 433) aborts
the iteration before `setSystemActions` (line 538), so the log is left
unchanged: nothing is inserted at position 0. -/
theorem throwing_dispatch_appends_no_log :
    toolCallStep (fun _ => true) false ⟨["a"], [], false⟩
      ⟨"call-1", "launchApp", []⟩ = ⟨["a"], [], true⟩ :=
  rfl

/-- C8 amended: whenever a tool-call dispatch completes without throwing,
the recent-actions log is updated to `take 5 (description :: old)`:
exactly one line is appended, at position 0, the log never exceeds 5
entries, the oldest beyond capacity being evicted — and exactly one
response for this call is queued. (A throwing dispatch appends no line,
per the counterexample above.) -/
theorem dispatch_logs_bounded (perms : String → Bool) (isMobile : Bool)
    (st : BatchState) (fc : ToolCall) (o : DispatchOutcome)
    (hab : st.aborted = false)
    (hd : dispatchToolCall perms isMobile fc.name fc.args = some o) :
    (toolCallStep perms isMobile st fc).log =
      (o.actionDescription :: st.log).take 5 ∧
    (toolCallStep perms isMobile st fc).log.head? = some o.actionDescription ∧
    (toolCallStep perms isMobile st fc).log.length = min (st.log.length + 1) 5 ∧
    (toolCallStep perms isMobile st fc).log.length ≤ 5 ∧
    (toolCallStep perms isMobile st fc).sent =
      st.sent ++ [⟨fc.id, fc.name, o.actionResult⟩] := by
  have hstep : toolCallStep perms isMobile st fc =
      { log := pushAction st.log o.actionDescription
        sent := st.sent ++ [⟨fc.id, fc.name, o.actionResult⟩]
        aborted := false } := by
    unfold toolCallStep
    rw [hab, hd]
    rfl
  rw [hstep]
  refine ⟨rfl, rfl, ?_, ?_, rfl⟩
  · show ((o.actionDescription :: st.log).take 5).length = _
    rw [List.length_take, List.length_cons]
    omega
  · show ((o.actionDescription :: st.log).take 5).length ≤ 5
    rw [List.length_take]
    omega

/-- Witness for C8: the spec scenario — a `controlLight` call with
brightness 40 and warm temperature dispatched onto an already-full
five-entry log. -/
theorem dispatch_logs_bounded_witness :
    (toolCallStep (fun _ => true) false ⟨demoFullLog, [], false⟩ demoLightCall).log.head? =
      some demoLightOutcome.actionDescription ∧
    (toolCallStep (fun _ => true) false ⟨demoFullLog, [], false⟩ demoLightCall).log.length = 5 ∧
    (toolCallStep (fun _ => true) false ⟨demoFullLog, [], false⟩ demoLightCall).sent =
      [⟨"call-7", "controlLight", demoLightOutcome.actionResult⟩] := by
  have h := dispatch_logs_bounded (fun _ => true) false ⟨demoFullLog, [], false⟩
    demoLightCall demoLightOutcome rfl rfl
  refine ⟨h.2.1, ?_, ?_⟩
  · rw [h.2.2.1]
    rfl
  · rw [h.2.2.2.2]
    rfl

/-- C6: for each permission-gated handler — `sendMessage` (WhatsApp),
`playMusic` (Spotify), `launchApp` (resolved app), `playVideo`
(YouTube) — when the required permission is false the dispatch returns
the user-facing denial result text and the distinct denial log line, and
performs no external action (no `window.open` or location change). -/
theorem permission_denied_no_external (perms : String → Bool) (isMobile : Bool) :
    (perms ("whatsapp") = false → ∀ args : Args,
      dispatchToolCall perms isMobile ("sendMessage") args = some
        { actionDescription := "❌ Permission denied for WhatsApp."
          actionResult := "I don\x27t have permission to send messages with WhatsApp. You can enable this in the settings."
          effects := [] }) ∧
    (perms ("spotify") = false → ∀ args : Args,
      dispatchToolCall perms isMobile ("playMusic") args = some
        { actionDescription := "❌ Permission denied for Spotify."
          actionResult := "I don\x27t have permission to play music on Spotify. You can enable this in the settings."
          effects := [] }) ∧
    (∀ (args : Args) (s : String) (app : SupportedApp),
      getArg args ("appName") = some (JVal.str s) →
      SUPPORTED_APPS.find? (fun a => jsIncludes (jsTrim (jsToLower s)) a.id) = some app →
      perms app.id = false →
      dispatchToolCall perms isMobile ("launchApp") args = some
        { actionDescription := "❌ Permission denied for " ++ app.name ++ "."
          actionResult := "I don\x27t have permission to launch " ++ app.name ++
            ". You can enable this in the settings."
          effects := [] }) ∧
    (perms ("youtube") = false → ∀ (args : Args) (lp : String),
      resolvePlatform (getArg args ("platform")) = some lp →
      jsIncludes lp ("youtube") = true →
      dispatchToolCall perms isMobile ("playVideo") args = some
        { actionDescription := "❌ Permission denied for YouTube."
          actionResult := "I don\x27t have permission to play videos on YouTube. You can enable this in the settings."
          effects := [] }) := by
  refine ⟨?_, ?_, ?_, ?_⟩
  · intro hperm args
    have e : dispatchToolCall perms isMobile ("sendMessage") args =
        sendMessageHandler perms args := rfl
    rw [e]
    unfold sendMessageHandler
    rw [hperm]
    rfl
  · intro hperm args
    have e : dispatchToolCall perms isMobile ("playMusic") args =
        playMusicHandler perms args := rfl
    rw [e]
    unfold playMusicHandler
    rw [hperm]
    rfl
  · intro args s app hname hfind hperm
    have e : dispatchToolCall perms isMobile ("launchApp") args =
        launchAppHandler perms isMobile args := rfl
    rw [e]
    unfold launchAppHandler
    simp only [hname, hfind, hperm]
    rfl
  · intro hperm args lp hres hinc
    have e : dispatchToolCall perms isMobile ("playVideo") args =
        playVideoHandler perms args := rfl
    rw [e]
    unfold playVideoHandler
    simp only [hres, hinc, hperm]
    rfl

/-- Witness for C6 with every permission false: the four gated calls each
yield their denial outcome with an empty effect list. -/
theorem permission_denied_no_external_witness :
    dispatchToolCall (fun _ => false) false ("sendMessage") [] = some
      { actionDescription := "❌ Permission denied for WhatsApp."
        actionResult := "I don\x27t have permission to send messages with WhatsApp. You can enable this in the settings."
        effects := [] } ∧
    dispatchToolCall (fun _ => false) false ("playMusic") [] = some
      { actionDescription := "❌ Permission denied for Spotify."
        actionResult := "I don\x27t have permission to play music on Spotify. You can enable this in the settings."
        effects := [] } ∧
    dispatchToolCall (fun _ => false) false ("launchApp")
      [("appName", JVal.str ("Spotify"))] = some
      { actionDescription := "❌ Permission denied for Spotify."
        actionResult := "I don\x27t have permission to launch Spotify. You can enable this in the settings."
        effects := [] } ∧
    dispatchToolCall (fun _ => false) false ("playVideo")
      [("title", JVal.str ("Matrix"))] = some
      { actionDescription := "❌ Permission denied for YouTube."
        actionResult := "I don\x27t have permission to play videos on YouTube. You can enable this in the settings."
        effects := [] } := by
  have h := permission_denied_no_external (fun _ => false) false
  refine ⟨h.1 rfl [], h.2.1 rfl [], ?_, ?_⟩
  · exact h.2.2.1 [("appName", JVal.str ("Spotify"))] ("Spotify")
      ⟨"spotify", "Spotify", "Allow Echo to play music on Spotify."⟩ rfl rfl rfl
  · exact h.2.2.2 rfl [("title", JVal.str ("Matrix"))] ("youtube") rfl rfl

/-- C7 (code bug): a `launchApp` call with no `appName` argument throws a
TypeError out of the handler (`(undefined).toLowerCase()`), instead of
being treated as a handling error; by contrast `makeCall` with no
`contact` argument is handled and still yields a result. -/
theorem launchApp_missing_arg_throws :
    dispatchToolCall (fun _ => true) true ("launchApp") [] = none ∧
    dispatchToolCall (fun _ => true) true ("makeCall") [] = some
      { actionDescription := "❌ Could not call undefined. Please provide a valid phone number."
        actionResult := "I can only call phone numbers directly. Please provide a full number."
        effects := [] } :=
  ⟨rfl, rfl⟩

/-- C4 (code bug): a batch whose first call is `launchApp` without
`appName` aborts the whole loop with an uncaught TypeError: neither that
call nor the following `controlLight` call receives a tool response, so
calls are silently dropped instead of each being answered exactly once. -/
theorem toolcall_batch_drops_on_throw :
    processToolCalls (fun _ => true) false ⟨[], [], false⟩
      [⟨"call-1", "launchApp", []⟩, ⟨"call-2", "controlLight", []⟩] =
      ⟨[], [], true⟩ :=
  rfl

/-- C9 counterexample: the capture path does not compute
`round(sample * 32768)` clamped to the 16-bit range: a full-scale sample
1.0 wraps to -32768 where the claimed conversion saturates at 32767, and
3/65536 (whose scaled value is 1.5) truncates to 1 where the claimed
conversion rounds to 2. -/
theorem capture_not_round_clamp :
    captureSample 1 = -32768 ∧ specPcm16 1 = 32767 ∧
    captureSample (3 / 65536) = 1 ∧ specPcm16 (3 / 65536) = 2 := by
  refine ⟨?_, ?_, ?_, ?_⟩ <;> with_unfolding_all decide

/-- C9 amended: the capture path converts each floating sample by
truncating `sample * 32768` toward zero and wrapping it modulo 2^16 into
the 16-bit signed range (JavaScript `Int16Array` coercion): the result
always lies in [-32768, 32767] and equals the truncated value exactly
when that value is already representable — samples at or beyond ±1.0
wrap around rather than saturate. -/
theorem capture_wraps_mod_2_16 (q : ℚ) :
    (-32768 ≤ captureSample q ∧ captureSample q ≤ 32767) ∧
    (-32768 ≤ jsTrunc (q * 32768) → jsTrunc (q * 32768) ≤ 32767 →
      captureSample q = jsTrunc (q * 32768)) := by
  have h : captureSample q =
      if jsTrunc (q * 32768) % 65536 < 32768 then jsTrunc (q * 32768) % 65536
      else jsTrunc (q * 32768) % 65536 - 65536 := rfl
  rw [h]
  constructor
  · constructor <;> (split_ifs <;> omega)
  · intro h1 h2
    split_ifs <;> omega

/-- Witness for C9 amended theorem at sample 1/2. -/
theorem capture_wraps_mod_2_16_witness :
    (-32768 ≤ captureSample (1 / 2) ∧ captureSample (1 / 2) ≤ 32767) ∧
    captureSample (1 / 2) = jsTrunc ((1 / 2 : ℚ) * 32768) :=
  ⟨(capture_wraps_mod_2_16 (1 / 2)).1,
   (capture_wraps_mod_2_16 (1 / 2)).2 (by with_unfolding_all decide)
     (by with_unfolding_all decide)⟩

/-- Taking one more scheduling event advances the cursor to the assigned
start time plus the buffer duration. -/
theorem nextStartAfter_take_succ (init : ℚ) (es : List SchedEvent) (i : ℕ)
    (h : i < es.length) :
    nextStartAfter init (es.take (i + 1)) =
      startOf init es i + (es.getD i ⟨0, 0⟩).dur := by
  have ht : es.take (i + 1) = es.take i ++ [es.getD i ⟨0, 0⟩] := by
    rw [List.take_succ]
    congr 1
    rw [List.getD_eq_getElem?_getD, List.getElem?_eq_getElem h]
    rfl
  rw [ht, nextStartAfter, List.foldl_append]
  rfl

/-- C1: for every sequence of audio-delta events handled while the output
context is open, the handler advances the cursor with
`nextStart = max(nextStart, clockNow)` before scheduling and
`nextStart += duration` after (third conjunct), so assigned start times
are non-decreasing (first) and contiguous — `start(n+1) = start(n) +
duration(n)` whenever `start(n)` is at or after the device clock observed
for buffer `n+1` (second). -/
theorem audio_schedule_monotone_contiguous (init : ℚ) (es : List SchedEvent)
    (hdur : ∀ e ∈ es, 0 ≤ e.dur) (i : ℕ) (hi : i + 1 < es.length) :
    startOf init es i ≤ startOf init es (i + 1) ∧
    ((es.getD (i + 1) ⟨0, 0⟩).clock ≤ startOf init es i →
      startOf init es (i + 1) = startOf init es i + (es.getD i ⟨0, 0⟩).dur) ∧
    (∀ (s : EngineState), s.outputCtxOpen = true → ∀ now dur : ℚ,
      (stepE s (.audioDelta now dur)).1.nextStart =
        (scheduleStep s.nextStart ⟨now, dur⟩).2 ∧
      (stepE s (.audioDelta now dur)).2 =
        [Obs.scheduledBuffer (scheduleStep s.nextStart ⟨now, dur⟩).1]) := by
  have hlt : i < es.length := Nat.lt_of_succ_lt hi
  have hmem : es.getD i ⟨0, 0⟩ ∈ es := by
    rw [List.getD_eq_getElem?_getD, List.getElem?_eq_getElem hlt]
    exact List.getElem_mem hlt
  have hd0 : 0 ≤ (es.getD i ⟨0, 0⟩).dur := hdur _ hmem
  have key : startOf init es (i + 1) =
      max (startOf init es i + (es.getD i ⟨0, 0⟩).dur)
        ((es.getD (i + 1) ⟨0, 0⟩).clock) := by
    rw [startOf, nextStartAfter_take_succ init es i hlt]
  refine ⟨?_, ?_, ?_⟩
  · rw [key]
    exact le_trans (by linarith) (le_max_left _ _)
  · intro hclk
    rw [key]
    exact max_eq_left (by linarith)
  · intro s hs now dur
    constructor <;> simp [stepE, handleAudioDelta, hs, scheduleStep]

/-- Witness for C1 on two concrete audio deltas and one concrete engine
state with the output context open. -/
theorem audio_schedule_monotone_contiguous_witness :
    startOf 0 demoSched 0 ≤ startOf 0 demoSched 1 ∧
    startOf 0 demoSched 1 = startOf 0 demoSched 0 + 1 ∧
    (stepE demoOpenState (.audioDelta 3 2)).1.nextStart =
      (scheduleStep demoOpenState.nextStart ⟨3, 2⟩).2 := by
  have h := audio_schedule_monotone_contiguous 0 demoSched
    (by with_unfolding_all decide) 0 (by with_unfolding_all decide)
  exact ⟨h.1, h.2.1 (by with_unfolding_all decide),
    (h.2.2 demoOpenState rfl 3 2).1⟩

/-- C10 counterexample: capture frames are sent while the state is
`speaking` (after an output-transcript delta, the still-wired processor
keeps sending), and playback buffers are scheduled while the state is
plain `listening` — both contradict the claimed gating. -/
theorem capture_and_playback_ignore_state :
    ((Obs.outboundFrame, preSpeaking) ∈
        runObs initState
          [Event.start, .connectOpen, .outputTranscript ("Hi"), .captureFrame] ∧
      preSpeaking.aState = .speaking) ∧
    ((Obs.scheduledBuffer 0, preListening) ∈
        runObs initState [Event.start, .connectOpen, .audioDelta 0 2] ∧
      preListening.aState = .listening) := by
  with_unfolding_all decide

/-- The invariant holds initially. -/
theorem engineInv_init : EngineInv initState := by
  refine ⟨?_, ?_⟩ <;> intro h <;> exact Bool.noConfusion h

/-- Every engine step preserves the invariant. -/
theorem engineInv_step (s : EngineState) (e : Event) (hInv : EngineInv s) :
    EngineInv (stepE s e).1 := by
  obtain ⟨h1, h2⟩ := hInv
  cases e with
  | start =>
      simp only [stepE]
      split_ifs with hidle
      · refine ⟨fun _ => rfl, fun hp => ?_⟩
        exfalso
        rcases (h2 hp).2 with h | h <;> rw [hidle] at h <;> cases h
      · exact ⟨h1, h2⟩
  | connectOpen =>
      simp only [stepE]
      split_ifs with hio
      · exact ⟨fun h => h1 h, fun _ => ⟨hio.1, Or.inl rfl⟩⟩
      · exact ⟨fun h => Bool.noConfusion h, fun h => Bool.noConfusion h⟩
  | inputTranscript t => exact ⟨h1, h2⟩
  | outputTranscript t => exact ⟨h1, fun hp => ⟨(h2 hp).1, Or.inr rfl⟩⟩
  | turnComplete now =>
      simp only [stepE, handleTurnComplete]
      split_ifs with hc
      · exact ⟨h1, fun hp => ⟨(h2 hp).1, (h2 hp).2⟩⟩
      · exact ⟨h1, fun hp => ⟨(h2 hp).1, Or.inl rfl⟩⟩
  | audioDelta now dur =>
      cases hob : s.outputCtxOpen with
      | false =>
          have e1 : (stepE s (.audioDelta now dur)).1 = s := by
            simp [stepE, handleAudioDelta, hob]
          rw [e1]
          exact ⟨h1, h2⟩
      | true =>
          have e1 : (stepE s (.audioDelta now dur)).1 =
              { s with nextStart := max s.nextStart now + dur
                       outputSources := s.outputSources ++ [max s.nextStart now] } := by
            simp [stepE, handleAudioDelta, hob]
          rw [e1]
          exact ⟨h1, fun hp => ⟨(h2 hp).1, (h2 hp).2⟩⟩
  | interrupted => exact ⟨h1, fun hp => ⟨(h2 hp).1, Or.inl rfl⟩⟩
  | drainFire =>
      cases hdt : s.drainTimer with
      | none =>
          have e1 : (stepE s .drainFire).1 = s := by simp [stepE, hdt]
          rw [e1]
          exact ⟨h1, h2⟩
      | some d =>
          have e1 : (stepE s .drainFire).1 =
              { s with aState := .listening, drainTimer := none } := by
            simp [stepE, hdt]
          rw [e1]
          exact ⟨h1, fun hp => ⟨(h2 hp).1, Or.inl rfl⟩⟩
  | captureFrame => exact ⟨h1, h2⟩
  | stop => exact ⟨fun h => Bool.noConfusion h, fun h => Bool.noConfusion h⟩

/-- Any single observable emitted from an invariant state obeys the
gating facts: frames need a live session and a wired processor (hence a
`listening` or `speaking` state); scheduled buffers need an open output
context. -/
theorem stepObs_sound (s : EngineState) (e : Event) (hInv : EngineInv s)
    (o : Obs) (ho : o ∈ (stepE s e).2) :
    (o = .outboundFrame → s.sessionOpen = true ∧
      s.scriptProcConnected = true ∧
      (s.aState = .listening ∨ s.aState = .speaking)) ∧
    (∀ q : ℚ, o = .scheduledBuffer q → s.outputCtxOpen = true) := by
  cases e with
  | captureFrame =>
      simp only [stepE] at ho
      by_cases hc : s.scriptProcConnected = true ∧ s.inputCtxOpen = true ∧
          s.sessionOpen = true
      · rw [if_pos hc] at ho
        rw [List.mem_singleton] at ho
        subst ho
        exact ⟨fun _ => ⟨hc.2.2, hc.1, (hInv.2 hc.1).2⟩,
          fun q hq => Obs.noConfusion hq⟩
      · rw [if_neg hc] at ho
        exact absurd ho (List.not_mem_nil o)
  | audioDelta now dur =>
      cases hob : s.outputCtxOpen with
      | false =>
          have e2 : (stepE s (.audioDelta now dur)).2 = [] := by
            simp [stepE, handleAudioDelta, hob]
          rw [e2] at ho
          exact absurd ho (List.not_mem_nil o)
      | true =>
          refine ⟨fun hof => ?_, fun q hq => rfl⟩
          have e2 : (stepE s (.audioDelta now dur)).2 =
              [Obs.scheduledBuffer (max s.nextStart now)] := by
            simp [stepE, handleAudioDelta, hob]
          rw [e2, List.mem_singleton] at ho
          rw [ho] at hof
          exact Obs.noConfusion hof
  | start =>
      simp only [stepE] at ho
      exact absurd ho (List.not_mem_nil o)
  | connectOpen =>
      simp only [stepE] at ho
      exact absurd ho (List.not_mem_nil o)
  | inputTranscript t =>
      simp only [stepE] at ho
      exact absurd ho (List.not_mem_nil o)
  | outputTranscript t =>
      simp only [stepE] at ho
      exact absurd ho (List.not_mem_nil o)
  | turnComplete now =>
      simp only [stepE] at ho
      exact absurd ho (List.not_mem_nil o)
  | interrupted =>
      simp only [stepE] at ho
      exact absurd ho (List.not_mem_nil o)
  | drainFire =>
      simp only [stepE] at ho
      exact absurd ho (List.not_mem_nil o)
  | stop =>
      simp only [stepE] at ho
      exact absurd ho (List.not_mem_nil o)

/-- Trace-level soundness of the emitted observables, for any invariant
starting state. -/
theorem runObs_sound (evs : List Event) (s : EngineState)
    (hInv : EngineInv s) :
    ∀ p : Obs × EngineState, p ∈ runObs s evs →
      (p.1 = .outboundFrame → p.2.sessionOpen = true ∧
        p.2.scriptProcConnected = true ∧
        (p.2.aState = .listening ∨ p.2.aState = .speaking)) ∧
      (∀ q : ℚ, p.1 = .scheduledBuffer q → p.2.outputCtxOpen = true) := by
  induction evs generalizing s with
  | nil =>
      intro p hp
      simp only [runObs] at hp
      exact absurd hp (List.not_mem_nil p)
  | cons e evs ih =>
      intro p hp
      simp only [runObs] at hp
      rw [List.mem_append] at hp
      rcases hp with hp | hp
      · rw [List.mem_map] at hp
        obtain ⟨o, ho, rfl⟩ := hp
        exact stepObs_sound s e hInv o ho
      · exact ih (stepE s e).1 (engineInv_step s e hInv) p hp

/-- C10 amended: in every reachable configuration, a captured frame is
sent outbound exactly when the session promise is live and the script
processor wired — which happens in the states `listening` and `speaking`
(never `idle` or `connecting`), not only in `listening`; an inbound
audio buffer is scheduled whenever the output audio context is open,
regardless of state (also in plain `listening`). -/
theorem frames_only_with_session_open (evs : List Event)
    (p : Obs × EngineState) (hp : p ∈ runObs initState evs) :
    (p.1 = .outboundFrame → p.2.sessionOpen = true ∧
      p.2.scriptProcConnected = true ∧
      (p.2.aState = .listening ∨ p.2.aState = .speaking)) ∧
    (∀ q : ℚ, p.1 = .scheduledBuffer q → p.2.outputCtxOpen = true) :=
  runObs_sound evs initState engineInv_init p hp

/-- Witness for the amended C10 theorem on the concrete
capture-while-speaking trace. -/
theorem frames_only_with_session_open_witness :
    preSpeaking.sessionOpen = true ∧
    preSpeaking.scriptProcConnected = true ∧
    (preSpeaking.aState = .listening ∨ preSpeaking.aState = .speaking) := by
  have h := frames_only_with_session_open
    [Event.start, .connectOpen, .outputTranscript ("Hi"), .captureFrame]
    (Obs.outboundFrame, preSpeaking) (by with_unfolding_all decide)
  exact h.1 rfl

end BromAI
